import Mathlib

/-!
Verification of the newsletter subscription-management views
(`bedrock/newsletter/views.py`) against their specification.

The Python handlers are shallowly embedded: each handler becomes a pure
function from an explicit request description (submitted form outcomes,
remote-service behaviour) to a result recording the remote calls issued,
the flash messages added, and the response (render / redirect).
-/

namespace Bedrock

/-! ### User-facing message strings (module-level constants in the source) -/

def general_error : String :=
  "We are sorry, but there was a problem with our system. Please try again later!"

def thank_you : String :=
  "Thanks for updating your email preferences."

def bad_token : String :=
  "The supplied link has expired or is not valid. You will receive a new one in the next newsletter, or below you can request an email with the link."

def recovery_text : String :=
  "Success! An email has been sent to you with your preference center link. Thanks!"

/-- `unknown_address_text` with the subscribe URL formatted in
(the source does `unknown_address_text % url`). -/
def unknown_address_text (url : String) : String :=
  "This email address is not in our system. Please double check your address or <a href=\"" ++ url ++ "\">subscribe to our newsletters.</a>"

def UNSUB_UNSUBSCRIBED_ALL : Int := 1

def UNSUB_REASONS_SUBMITTED : Int := 2

/-! ### Token validation: `UUID_REGEX.match(token)`

The source compiles
`^[0-9a-f]{8}-[0-9a-f]{4}-[0-9a-f]{4}-[0-9a-f]{4}-[0-9a-f]{12}$`
with `re.IGNORECASE` and calls `.match`.  We embed the regex as a
consuming matcher.  Python semantics: `^` anchors at the start (as does
`.match`), and `$` without `re.MULTILINE` matches at the end of the
string or just before a newline at the end of the string. -/

/-- The character class `[0-9a-f]` under `re.IGNORECASE`. -/
def hexDigit (c : Char) : Bool :=
  (decide ('0' ≤ c) && decide (c ≤ '9')) ||
  (decide ('a' ≤ c) && decide (c ≤ 'f')) ||
  (decide ('A' ≤ c) && decide (c ≤ 'F'))

/-- Consume exactly `n` hex digits (`[0-9a-f]{n}`), returning the rest. -/
def hexChunk : Nat → List Char → Option (List Char)
  | 0, cs => some cs
  | _ + 1, [] => none
  | n + 1, c :: cs => if hexDigit c then hexChunk n cs else none

/-- Consume a literal dash. -/
def expectDash : List Char → Option (List Char)
  | [] => none
  | c :: cs => if c = '-' then some cs else none

/-- Consume the UUID body `[0-9a-f]{8}-{4}-{4}-{4}-{12}`, returning what
remains for the `$` anchor. -/
def matchUuidBody (cs : List Char) : Option (List Char) :=
  ((((((((hexChunk 8 cs).bind expectDash).bind (hexChunk 4)).bind expectDash).bind
      (hexChunk 4)).bind expectDash).bind (hexChunk 4)).bind expectDash).bind (hexChunk 12)

/-- Python `$` (no `re.MULTILINE`): end of string, or just before a
trailing newline. -/
def dollarAnchor : List Char → Bool
  | [] => true
  | ['\n'] => true
  | _ => false

/-- `bool(UUID_REGEX.match(s))`: the token-shape check used by the
`existing` handler. -/
def uuidRegexMatch (s : String) : Bool :=
  match matchUuidBody s.data with
  | some rest => dollarAnchor rest
  | none => false

/-- Spec-side notion: a group of exactly `n` hex digits. -/
def HexGroup (n : Nat) (g : List Char) : Prop :=
  g.length = n ∧ ∀ c ∈ g, hexDigit c = true

/-- Spec-side notion, from the spec words: "the canonical UUID textual
form (32 hex digits in groups of 8-4-4-4-12, case-insensitive)". -/
def IsCanonicalUuid (cs : List Char) : Prop :=
  ∃ g1 g2 g3 g4 g5, HexGroup 8 g1 ∧ HexGroup 4 g2 ∧ HexGroup 4 g3 ∧ HexGroup 4 g4 ∧
    HexGroup 12 g5 ∧
    cs = g1 ++ '-' :: (g2 ++ '-' :: (g3 ++ '-' :: (g4 ++ '-' :: g5)))

/-! ### Data model -/

/-- Snapshot of a subscriber fetched from basket (`basket.user(token)`). -/
structure UserRecord where
  email : String
  lang : String
  format : String
  country : String
  newsletters : List String
deriving DecidableEq

/-- One entry of the newsletter catalog (`utils.get_newsletters()` value).
`show` and `order` are optional keys of the underlying dictionary
(the source reads `data.get('show', False)` and tests `'order' in data`). -/
structure NewsletterData where
  title : String
  description : String
  languages : List String
  «show» : Option Bool
  order : Option Int
deriving DecidableEq

/-- One `form_data` dictionary appended to `initial` by the `existing`
handler; `order` is present exactly when the catalog entry carries it. -/
structure FormData where
  title : String
  subscribed : Bool
  newsletter : String
  description : String
  english_only : Bool
  order : Option Int
deriving DecidableEq

inductive Method where
  | get
  | post
deriving DecidableEq

/-- A call against the remote subscription service (basket). -/
inductive RemoteCall where
  | userFetch (token : String)
  | updateUser (token : String) (kwargs : List (String × String))
  | unsubscribe (token : String) (email : String) (optout : Bool)
  | subscribe (email : String) (newsletter : String)
  | sendRecoveryMessage (email : String)
  | confirmToken (token : String)
  | customUnsubReason (token : String) (text : String)
deriving DecidableEq

/-- Remote write calls, as opposed to the read-only user fetch. -/
def RemoteCall.isWrite : RemoteCall → Bool
  | .userFetch _ => false
  | _ => true

inductive Response where
  | redirectTo (url : String)
  | render (template : String)
  | serverError
deriving DecidableEq

/-- What a handler run did: remote calls in order, flash messages added,
and the response produced. -/
structure HandlerResult where
  calls : List RemoteCall
  messages : List String
  response : Response
deriving DecidableEq

/-- `reverse('newsletter.recovery')`. -/
def recoveryUrl : String := "/newsletter/recovery/"

/-- `reverse('newsletter.updated')`. -/
def updatedUrl : String := "/newsletter/updated/"

/-- `reverse('newsletter.mozilla-and-you')`. -/
def mozillaAndYouUrl : String := "/newsletter/"

def existingTemplate : String := "newsletter/existing.html"

def recoveryTemplate : String := "newsletter/recovery.html"

/-! ### The display list (`initial`) built by the `existing` handler -/

/-- The `initial` list: one `form_data` per catalog entry that either has
`show == True` or is among the user's current subscriptions. -/
def buildInitial (catalog : List (String × NewsletterData)) (user : UserRecord) :
    List FormData :=
  catalog.filterMap (fun p =>
    if p.2.«show».getD false || user.newsletters.contains p.1 then
      some { title := p.2.title,
             subscribed := user.newsletters.contains p.1,
             newsletter := p.1,
             description := p.2.description,
             english_only := match p.2.languages with
                             | [l] => List.isPrefixOf "en".data l.data
                             | _ => false,
             order := p.2.order }
    else none)

/-- Comparison used when sorting `initial` by `itemgetter('order')`
(only applied when every entry carries `order`). -/
def orderLe (a b : FormData) : Prop := a.order.getD 0 ≤ b.order.getD 0

/-- Comparison used when sorting `initial` by `itemgetter('title')`. -/
def titleLe (a b : FormData) : Prop := a.title ≤ b.title

instance : DecidableRel orderLe :=
  fun a b => inferInstanceAs (Decidable (a.order.getD 0 ≤ b.order.getD 0))

instance : DecidableRel titleLe :=
  fun a b => inferInstanceAs (Decidable (a.title ≤ b.title))

instance : IsTotal FormData orderLe := ⟨fun a b => le_total (a.order.getD 0) (b.order.getD 0)⟩

instance : IsTrans FormData orderLe :=
  ⟨fun _ _ _ h₁ h₂ => le_trans (α := Int) h₁ h₂⟩

instance : IsTotal FormData titleLe := ⟨fun a b => le_total a.title b.title⟩

instance : IsTrans FormData titleLe :=
  ⟨fun _ _ _ h₁ h₂ => le_trans (α := String) h₁ h₂⟩

/-- `initial.sort(key=itemgetter(keyfield))` with
`keyfield = 'order' if 'order' in initial[0] else 'title'`.  Sorting is
modelled by the stable `List.insertionSort`.  When `'order'` is chosen
but some entry lacks it, `itemgetter` raises `KeyError`: modelled as
`none`. -/
def sortInitial (initial : List FormData) : Option (List FormData) :=
  match initial with
  | [] => some []
  | fd :: _ =>
    if fd.order.isSome then
      if initial.all (fun y => y.order.isSome) then
        some (List.insertionSort orderLe initial)
      else none
    else some (List.insertionSort titleLe initial)

/-! ### The `existing` (manage subscriptions) handler -/

/-- Outcome of the `basket.user(token)` fetch: a record, a
`BasketNetworkException`, or any other `BasketException`. -/
inductive FetchResult where
  | ok (user : UserRecord)
  | networkError
  | basketError
deriving DecidableEq

/-- Outcomes of validating the POST data, abstracting Django forms:
`formValid` is `ManageSubscriptionsForm.is_valid()`, `remove_all` and
`lang`/`format`/`country` its `cleaned_data`; `formsetValid` is
`NewsletterFormSet.is_valid()` and `formsetNewsletters` the set of
newsletters whose subforms have `subscribed` checked (listed in some
iteration order). -/
structure PostForm where
  formValid : Bool
  remove_all : Bool
  lang : String
  format : String
  country : String
  formsetValid : Bool
  formsetNewsletters : List String
deriving DecidableEq

/-- A request to the `existing` handler together with the behaviour of
the remote service on this request. -/
structure ExistingRequest where
  method : Method
  token : Option String
  fetch : FetchResult
  catalog : List (String × NewsletterData)
  form : PostForm
  updateUserFails : Bool
  unsubscribeFails : Bool
deriving DecidableEq

/-- `for k in ['lang', 'format', 'country']: if user[k] != data[k]:
kwargs[k] = data[k]`. -/
def fieldDiffKwargs (user : UserRecord) (d : PostForm) : List (String × String) :=
  (if user.lang ≠ d.lang then [("lang", d.lang)] else []) ++
  (if user.format ≠ d.format then [("format", d.format)] else []) ++
  (if user.country ≠ d.country then [("country", d.country)] else [])

/-- The POST branch of `existing` after a successful user fetch. -/
def existingPost (token : String) (user : UserRecord) (form : PostForm)
    (updateUserFails unsubscribeFails : Bool) : HandlerResult :=
  let remove_all := form.formValid && form.remove_all
  let formset_is_valid := remove_all || form.formsetValid
  if formset_is_valid && form.formValid then
    let kwargs :=
      fieldDiffKwargs user form ++
        (if remove_all then []
         else [("newsletters", String.intercalate "," form.formsetNewsletters)])
    if !kwargs.isEmpty && updateUserFails then
      { calls := [.userFetch token, .updateUser token kwargs],
        messages := [general_error],
        response := .render existingTemplate }
    else
      let updCalls := if kwargs.isEmpty then [] else [RemoteCall.updateUser token kwargs]
      if remove_all then
        if unsubscribeFails then
          { calls := .userFetch token :: (updCalls ++ [.unsubscribe token user.email true]),
            messages := [general_error],
            response := .render existingTemplate }
        else
          { calls := .userFetch token :: (updCalls ++ [.unsubscribe token user.email true]),
            messages := [],
            response := .redirectTo (updatedUrl ++ "?unsub=1&token=" ++ token) }
      else
        { calls := .userFetch token :: updCalls,
          messages := [],
          response := .redirectTo updatedUrl }
  else
    { calls := [.userFetch token],
      messages := [],
      response := .render existingTemplate }

/-- The `existing` handler.  (The `if token:` re-test at the fetch is
always true here: the regex only matches non-empty tokens.) -/
def existing (req : ExistingRequest) : HandlerResult :=
  match req.token with
  | none => { calls := [], messages := [], response := .redirectTo recoveryUrl }
  | some token =>
    if uuidRegexMatch token then
      match req.fetch with
      | .networkError =>
        { calls := [.userFetch token],
          messages := [general_error],
          response := .render existingTemplate }
      | .basketError =>
        { calls := [.userFetch token],
          messages := [bad_token],
          response := .redirectTo recoveryUrl }
      | .ok user =>
        match sortInitial (buildInitial req.catalog user) with
        | none => { calls := [.userFetch token], messages := [], response := .serverError }
        | some _ =>
          match req.method with
          | .get =>
            { calls := [.userFetch token],
              messages := [],
              response := .render existingTemplate }
          | .post => existingPost token user req.form req.updateUserFails req.unsubscribeFails
    else
      { calls := [], messages := [bad_token], response := .redirectTo recoveryUrl }

/-! ### The `confirm` handler -/

/-- Outcome of `basket.confirm(token)`: a `BasketException` carrying a
status code, or a result dictionary with a `status` value. -/
inductive ConfirmOutcome where
  | raisesCode (code : Nat)
  | returns (status : String)
deriving DecidableEq

/-- The context rendered into `newsletter/confirm.html`. -/
structure ConfirmFlags where
  success : Bool
  generic_error : Bool
  token_error : Bool
deriving DecidableEq

/-- The `confirm` handler: classify the outcome of the confirm call. -/
def confirm (o : ConfirmOutcome) : ConfirmFlags :=
  match o with
  | .raisesCode code =>
    if code = 403 then
      { success := false, generic_error := false, token_error := true }
    else
      { success := false, generic_error := true, token_error := false }
  | .returns result_status =>
    if result_status = "ok" then
      { success := true, generic_error := false, token_error := false }
    else
      { success := false, generic_error := true, token_error := false }

/-! ### The `updated` (post-update landing) handler -/

/-- Possible unsubscribe reasons (`REASONS`), English texts. -/
def REASONS : List String :=
  ["You send too many emails.",
   "Your content wasn\x27t relevant to me.",
   "Your email design was too hard to read.",
   "I didn\x27t sign up for this.",
   "I\x27m keeping in touch with Mozilla on Facebook and Twitter instead."]

/-- A request to the `updated` handler.  `unsub` and `token` are the raw
request parameters (absent = `none`); `reasonParams` lists the indices
`i` with `'reason%d' % i in request.REQUEST`; `reasonTextP` is
`'reason-text-p' in request.REQUEST`; `reasonText` the `'reason-text'`
parameter. -/
structure UpdatedRequest where
  method : Method
  unsub : Option String
  token : Option String
  reasonParams : List Nat
  reasonTextP : Bool
  reasonText : Option String
deriving DecidableEq

/-- What the `updated` handler did: the remote calls issued, the flash
messages added, and the two template-context flags. -/
structure UpdatedResult where
  calls : List RemoteCall
  messages : List String
  unsubscribed_all : Bool
  reasons_submitted : Bool
deriving DecidableEq

/-- The `Nd` (decimal digit) code-point ranges of Unicode 5.2.0, the
Unicode version of CPython 2.7, each 10-aligned so that the decimal
value of a digit is its offset from the range start modulo 10
(the last range packs the five mathematical digit styles
U+1D7CE..U+1D7FF).  CPython 2.7's `int(u'...')` converts every
character with a decimal-digit value to the corresponding ASCII digit
(`Py_UNICODE_TODECIMAL` in `PyUnicode_EncodeDecimal`), so e.g.
`int(u'٢') == 2`. -/
def pyUnicodeDigitRanges : List (Nat × Nat) :=
  [(0x30, 0x39), (0x660, 0x669), (0x6F0, 0x6F9), (0x7C0, 0x7C9), (0x966, 0x96F),
   (0x9E6, 0x9EF), (0xA66, 0xA6F), (0xAE6, 0xAEF), (0xB66, 0xB6F), (0xBE6, 0xBEF),
   (0xC66, 0xC6F), (0xCE6, 0xCEF), (0xD66, 0xD6F), (0xE50, 0xE59), (0xED0, 0xED9),
   (0xF20, 0xF29), (0x1040, 0x1049), (0x1090, 0x1099), (0x17E0, 0x17E9),
   (0x1810, 0x1819), (0x1946, 0x194F), (0x19D0, 0x19D9), (0x1A80, 0x1A89),
   (0x1A90, 0x1A99), (0x1B50, 0x1B59), (0x1BB0, 0x1BB9), (0x1C40, 0x1C49),
   (0x1C50, 0x1C59), (0xA620, 0xA629), (0xA8D0, 0xA8D9), (0xA900, 0xA909),
   (0xA9D0, 0xA9D9), (0xAA50, 0xAA59), (0xABF0, 0xABF9), (0xFF10, 0xFF19),
   (0x104A0, 0x104A9), (0x1D7CE, 0x1D7FF)]

/-- `Py_UNICODE_TODECIMAL`: the decimal value of a Unicode decimal
digit, `none` for every other character. -/
def pyDecimalVal (c : Char) : Option Nat :=
  match pyUnicodeDigitRanges.find? (fun p => p.1 ≤ c.toNat && c.toNat ≤ p.2) with
  | some p => some ((c.toNat - p.1) % 10)
  | none => none

/-- `Py_UNICODE_ISSPACE` of CPython 2.7 (Unicode 5.2.0): the characters
`int(u'...')` strips at either end.  Unlike ASCII `isspace`, this
includes U+001C..U+001F, NEL, NBSP and the Unicode space separators. -/
def pyUnicodeIsSpace (c : Char) : Bool :=
  let n := c.toNat
  (0x9 ≤ n && n ≤ 0xD) || (0x1C ≤ n && n ≤ 0x1F) || n == 0x20 || n == 0x85 ||
  n == 0xA0 || n == 0x1680 || n == 0x180E || (0x2000 ≤ n && n ≤ 0x200A) ||
  n == 0x2028 || n == 0x2029 || n == 0x202F || n == 0x205F || n == 0x3000

/-- The digit run of Python 2 `int(u'...')`: at least one character,
every character a Unicode decimal digit, read base 10 through
`Py_UNICODE_TODECIMAL`; `none` models `ValueError`. -/
def digitsVal (ds : List Char) : Option Nat :=
  match ds with
  | [] => none
  | _ =>
    if ds.all (fun c => (pyDecimalVal c).isSome) then
      some (ds.foldl (fun a c => a * 10 + (pyDecimalVal c).getD 0) 0)
    else none

/-- Python 2 `int(u'...')`: strip Unicode whitespace at both ends, then
an optional ASCII sign followed by one or more Unicode decimal digits;
anything else (including interior whitespace, which
`PyUnicode_EncodeDecimal` maps to a space the integer parser then
rejects) is a `ValueError`, modelled as `none`. -/
def pyParseInt (s : String) : Option Int :=
  let cs := ((s.data.dropWhile pyUnicodeIsSpace).reverse.dropWhile pyUnicodeIsSpace).reverse
  match cs with
  | '-' :: ds => (digitsVal ds).map (fun n => -(n : Int))
  | '+' :: ds => (digitsVal ds).map (fun n => (n : Int))
  | ds => (digitsVal ds).map (fun n => (n : Int))

/-- `unsub = request.REQUEST.get('unsub', '0')` followed by
`int(unsub)` with `ValueError` mapped to `0`. -/
def parsedUnsub (p : Option String) : Int :=
  match pyParseInt (p.getD "0") with
  | some n => n
  | none => 0

/-- The list `reasons`: texts of the checked predefined reasons in index
order, then the free-text reason when `reason-text-p` was submitted. -/
def reasonList (req : UpdatedRequest) : List String :=
  (REASONS.enum.filterMap (fun p =>
    if req.reasonParams.contains p.1 then some p.2 else none)) ++
  (if req.reasonTextP then [req.reasonText.getD ""] else [])

/-- `reason_text = "\n\n".join(reasons) + "\n\n"`. -/
def reason_text (req : UpdatedRequest) : String :=
  String.intercalate "\n\n" (reasonList req) ++ "\n\n"

/-- The `updated` handler. -/
def updated (req : UpdatedRequest) : UpdatedResult :=
  let unsub := parsedUnsub req.unsub
  let unsubscribed_all := decide (unsub = UNSUB_UNSUBSCRIBED_ALL)
  let reasons_submitted := decide (unsub = UNSUB_REASONS_SUBMITTED)
  let messages := if unsub = 0 then [thank_you] else []
  let tok := req.token.getD ""
  let calls :=
    if req.method = Method.post ∧ reasons_submitted = true ∧ tok ≠ "" then
      [RemoteCall.customUnsubReason tok (reason_text req)]
    else []
  { calls := calls, messages := messages,
    unsubscribed_all := unsubscribed_all, reasons_submitted := reasons_submitted }

/-! ### The `recovery` handler -/

/-- Outcome of `basket.send_recovery_message(email)`. -/
inductive RecoveryOutcome where
  | raisesCode (code : Nat)
  | succeeds
deriving DecidableEq

/-- A request to the `recovery` handler; `formValid` and `email` stand
for `EmailForm` validation and its cleaned email; `successParam` is
`'success' in request.GET`. -/
structure RecoveryRequest where
  method : Method
  path : String
  formValid : Bool
  email : String
  successParam : Bool
  sendOutcome : RecoveryOutcome
deriving DecidableEq

/-- What the `recovery` handler did.  `formShown` is false when the view
renders without a form (after the success redirect). -/
structure RecoveryView where
  calls : List RemoteCall
  emailErrors : List String
  allErrors : List String
  messages : List String
  response : Response
  formShown : Bool
deriving DecidableEq

/-- The `recovery` handler. -/
def recovery (req : RecoveryRequest) : RecoveryView :=
  match req.method with
  | .post =>
    if req.formValid then
      match req.sendOutcome with
      | .raisesCode code =>
        if code = 404 then
          { calls := [.sendRecoveryMessage req.email],
            emailErrors := [unknown_address_text mozillaAndYouUrl],
            allErrors := [],
            messages := [],
            response := .render recoveryTemplate,
            formShown := true }
        else
          { calls := [.sendRecoveryMessage req.email],
            emailErrors := [],
            allErrors := [general_error],
            messages := [],
            response := .render recoveryTemplate,
            formShown := true }
      | .succeeds =>
        { calls := [.sendRecoveryMessage req.email],
          emailErrors := [],
          allErrors := [],
          messages := [recovery_text],
          response := .redirectTo (req.path ++ "?success"),
          formShown := true }
    else
      { calls := [], emailErrors := [], allErrors := [], messages := [],
        response := .render recoveryTemplate, formShown := true }
  | .get =>
    if req.successParam then
      { calls := [], emailErrors := [], allErrors := [], messages := [],
        response := .render recoveryTemplate, formShown := false }
    else
      { calls := [], emailErrors := [], allErrors := [], messages := [],
        response := .render recoveryTemplate, formShown := true }

/-- A POST request to `existing` with the given submitted-form outcomes
and remote behaviour, for a user whose fetch succeeds. -/
def mkPostRequest (t : String) (user : UserRecord)
    (catalog : List (String × NewsletterData)) (form : PostForm)
    (updateUserFails unsubscribeFails : Bool) : ExistingRequest :=
  { method := .post, token := some t, fetch := .ok user, catalog := catalog,
    form := form, updateUserFails := updateUserFails,
    unsubscribeFails := unsubscribeFails }

/-! ### Sample inputs used by witnesses and counterexamples -/

/-- The example UUID from the source comment. -/
def sampleToken : String := "f81d4fae-7dec-11d0-a765-00a0c91e6bf6"

/-- The example user from the source comment. -/
def sampleUser : UserRecord :=
  { email := "user@example.com", lang := "en", format := "H", country := "us",
    newsletters := ["firefox-tips", "mobile"] }

def emptyPostForm : PostForm :=
  { formValid := false, remove_all := false, lang := "", format := "", country := "",
    formsetValid := false, formsetNewsletters := [] }

def noTokenRequest : ExistingRequest :=
  { method := .get, token := none, fetch := .networkError, catalog := [],
    form := emptyPostForm, updateUserFails := false, unsubscribeFails := false }

def badTokenRequest : ExistingRequest :=
  { noTokenRequest with token := some "not-a-uuid" }

def networkErrorRequest : ExistingRequest :=
  { noTokenRequest with token := some sampleToken }

def basketErrorRequest : ExistingRequest :=
  { networkErrorRequest with fetch := .basketError }

/-- `remove_all` checked while also changing `lang` from "en" to "de". -/
def c1Request : ExistingRequest :=
  { method := .post, token := some sampleToken, fetch := .ok sampleUser, catalog := [],
    form := { formValid := true, remove_all := true, lang := "de", format := "H",
              country := "us", formsetValid := false, formsetNewsletters := [] },
    updateUserFails := false, unsubscribeFails := false }

/-- `remove_all` checked with no field changes. -/
def c1WitnessRequest : ExistingRequest :=
  { c1Request with form := { c1Request.form with lang := "en" } }

/-- A valid POST that changes nothing at all. -/
def c2Request : ExistingRequest :=
  { method := .post, token := some sampleToken, fetch := .ok sampleUser, catalog := [],
    form := { formValid := true, remove_all := false, lang := "en", format := "H",
              country := "us", formsetValid := true,
              formsetNewsletters := ["firefox-tips", "mobile"] },
    updateUserFails := false, unsubscribeFails := false }

/-- A valid POST that changes only `lang`. -/
def c2WitnessRequest : ExistingRequest :=
  { c2Request with form := { c2Request.form with lang := "de" } }

def c5User : UserRecord :=
  { email := "u@example.com", lang := "en", format := "H", country := "us",
    newsletters := ["old-news"] }

def c5OldNewsData : NewsletterData :=
  { title := "Old", description := "O", languages := ["en"],
    «show» := some false, order := some 3 }

/-- The head of `buildInitial c5Catalog c5User`. -/
def c5HeadForm : FormData :=
  { title := "Beta", subscribed := false, newsletter := "beta",
    description := "B", english_only := true, order := some 2 }

def c5Catalog : List (String × NewsletterData) :=
  [("beta", { title := "Beta", description := "B", languages := ["en"],
              «show» := some true, order := some 2 }),
   ("alpha", { title := "Alpha", description := "A", languages := ["en"],
               «show» := some true, order := some 1 }),
   ("old-news", { title := "Old", description := "O", languages := ["en"],
                  «show» := some false, order := some 3 }),
   ("hidden", { title := "Hidden", description := "Hd", languages := ["en"],
                «show» := none, order := some 4 })]

/-- The C8 scenario: `unsub=2`, a token, reasons 0 and 3, free text "spam". -/
def c8Request : UpdatedRequest :=
  { method := .post, unsub := some "2", token := some sampleToken,
    reasonParams := [0, 3], reasonTextP := true, reasonText := some "spam" }

/-- A landing-page request with an unparseable `unsub` parameter. -/
def c10Request : UpdatedRequest :=
  { method := .get, unsub := some "pony", token := none, reasonParams := [],
    reasonTextP := false, reasonText := none }

/-- A landing-page request with no `unsub` parameter at all. -/
def c10AbsentRequest : UpdatedRequest :=
  { c10Request with unsub := none }

def c7Request404 : RecoveryRequest :=
  { method := .post, path := "/newsletter/recovery/", formValid := true,
    email := "x@example.com", successParam := false, sendOutcome := .raisesCode 404 }

def c7Request500 : RecoveryRequest :=
  { c7Request404 with sendOutcome := .raisesCode 500 }

def c7RequestOk : RecoveryRequest :=
  { c7Request404 with sendOutcome := .succeeds }

/-! ### Lemmas about the embedded UUID regex -/

theorem hexChunk_eq_some {n : Nat} {cs r : List Char} :
    hexChunk n cs = some r ↔ ∃ g, HexGroup n g ∧ cs = g ++ r := by
  induction n generalizing cs with
  | zero =>
    constructor
    · intro h
      refine ⟨[], ⟨rfl, by intro c hc; cases hc⟩, ?_⟩
      simpa [hexChunk] using h
    · rintro ⟨g, ⟨hl, _⟩, rfl⟩
      rw [List.length_eq_zero] at hl
      subst hl
      simp [hexChunk]
  | succ n ih =>
    cases cs with
    | nil =>
      constructor
      · intro h; simp [hexChunk] at h
      · rintro ⟨g, ⟨hl, _⟩, heq⟩
        cases g with
        | nil => simp at hl
        | cons a as => simp at heq
    | cons c cs =>
      by_cases hc : hexDigit c = true
      · rw [show hexChunk (n + 1) (c :: cs) = hexChunk n cs by simp [hexChunk, hc], ih]
        constructor
        · rintro ⟨g, ⟨hl, hall⟩, rfl⟩
          refine ⟨c :: g, ⟨by simp [hl], ?_⟩, by simp⟩
          intro x hx
          rcases List.mem_cons.mp hx with h | h
          · subst h; exact hc
          · exact hall x h
        · rintro ⟨g, ⟨hl, hall⟩, heq⟩
          cases g with
          | nil => simp at hl
          | cons a as =>
            rw [List.cons_append, List.cons.injEq] at heq
            refine ⟨as, ⟨by simpa using hl, fun x hx => hall x (List.mem_cons_of_mem a hx)⟩,
              heq.2⟩
      · constructor
        · intro h; simp [hexChunk, hc] at h
        · rintro ⟨g, ⟨hl, hall⟩, heq⟩
          cases g with
          | nil => simp at hl
          | cons a as =>
            rw [List.cons_append, List.cons.injEq] at heq
            exact absurd (heq.1 ▸ hall a (List.mem_cons_self a as)) hc

theorem expectDash_eq_some {cs r : List Char} :
    expectDash cs = some r ↔ cs = '-' :: r := by
  cases cs with
  | nil => simp [expectDash]
  | cons c cs =>
    by_cases h : c = '-'
    · subst h; simp [expectDash]
    · simp [expectDash, h, Ne.symm h]

theorem expectDash_cons (X : List Char) : expectDash ('-' :: X) = some X := by
  simp [expectDash]

theorem hexChunk_append : ∀ (g : List Char) {n : Nat} (r : List Char),
    g.length = n → (∀ c ∈ g, hexDigit c = true) → hexChunk n (g ++ r) = some r := by
  intro g
  induction g with
  | nil =>
    intro n r hl _
    subst hl
    simp [hexChunk]
  | cons c g ih =>
    intro n r hl hall
    subst hl
    have hc : hexDigit c = true := hall c (List.mem_cons_self c g)
    simp only [List.length_cons, List.cons_append, hexChunk, hc, if_true]
    exact ih r rfl (fun x hx => hall x (List.mem_cons_of_mem c hx))

theorem matchUuidBody_eq_some {cs r : List Char} :
    matchUuidBody cs = some r ↔
      ∃ g1 g2 g3 g4 g5, HexGroup 8 g1 ∧ HexGroup 4 g2 ∧ HexGroup 4 g3 ∧ HexGroup 4 g4 ∧
        HexGroup 12 g5 ∧
        cs = g1 ++ '-' :: (g2 ++ '-' :: (g3 ++ '-' :: (g4 ++ '-' :: (g5 ++ r)))) := by
  constructor
  · intro h
    simp only [matchUuidBody, Option.bind_eq_some, hexChunk_eq_some, expectDash_eq_some] at h
    obtain ⟨a8, ⟨a7, ⟨a6, ⟨a5, ⟨a4, ⟨a3, ⟨a2, ⟨a1, ⟨g1, hg1, rfl⟩, rfl⟩,
      ⟨g2, hg2, rfl⟩⟩, rfl⟩, ⟨g3, hg3, rfl⟩⟩, rfl⟩, ⟨g4, hg4, rfl⟩⟩, rfl⟩,
      ⟨g5, hg5, rfl⟩⟩ := h
    exact ⟨g1, g2, g3, g4, g5, hg1, hg2, hg3, hg4, hg5, by simp⟩
  · rintro ⟨g1, g2, g3, g4, g5, hg1, hg2, hg3, hg4, hg5, rfl⟩
    simp only [matchUuidBody]
    rw [hexChunk_append g1 _ hg1.1 hg1.2, Option.some_bind, expectDash_cons, Option.some_bind,
      hexChunk_append g2 _ hg2.1 hg2.2, Option.some_bind, expectDash_cons, Option.some_bind,
      hexChunk_append g3 _ hg3.1 hg3.2, Option.some_bind, expectDash_cons, Option.some_bind,
      hexChunk_append g4 _ hg4.1 hg4.2, Option.some_bind, expectDash_cons, Option.some_bind]
    exact hexChunk_append g5 _ hg5.1 hg5.2

theorem dollarAnchor_eq_true {cs : List Char} :
    dollarAnchor cs = true ↔ cs = [] ∨ cs = ['\n'] := by
  match cs with
  | [] => simp [dollarAnchor]
  | [c] =>
    by_cases h : c = '\n'
    · subst h; simp [dollarAnchor]
    · simp [dollarAnchor, h]
  | c :: d :: cs => simp [dollarAnchor]

/-! ### Claim C3: token validity check -/

theorem IsCanonicalUuid.length_eq {cs : List Char} (h : IsCanonicalUuid cs) :
    cs.length = 36 := by
  obtain ⟨g1, g2, g3, g4, g5, ⟨h1, _⟩, ⟨h2, _⟩, ⟨h3, _⟩, ⟨h4, _⟩, ⟨h5, _⟩, rfl⟩ := h
  simp [h1, h2, h3, h4, h5]

/-- Claim C3 is false as stated: the check is claimed to reject every
string with surrounding whitespace, including a trailing newline, yet
the code accepts a canonical UUID followed by a trailing newline
(Python `$` matches just before a trailing newline). -/
theorem C3_counterexample :
    uuidRegexMatch "f81d4fae-7dec-11d0-a765-00a0c91e6bf6\n" = true ∧
    ¬ IsCanonicalUuid ("f81d4fae-7dec-11d0-a765-00a0c91e6bf6\n").data := by
  constructor
  · rfl
  · intro h
    have h36 := h.length_eq
    have h37 : ("f81d4fae-7dec-11d0-a765-00a0c91e6bf6\n").data.length = 37 := by decide
    rw [h36] at h37
    exact absurd h37 (by decide)

/-- Claim C3 (amended): the token validity check accepts a string iff it
is exactly the canonical UUID textual form — 32 hex digits in groups of
8-4-4-4-12, case-insensitive, with no extra characters and no
surrounding whitespace — except that a single trailing newline after the
canonical form is also accepted (Python `$` semantics); everything else
is rejected. -/
theorem C3_amended_token_validity (s : String) :
    uuidRegexMatch s = true ↔
      (IsCanonicalUuid s.data ∨ ∃ core, IsCanonicalUuid core ∧ s.data = core ++ ['\n']) := by
  constructor
  · intro h
    unfold uuidRegexMatch at h
    rcases hm : matchUuidBody s.data with _ | rest
    · rw [hm] at h
      exact absurd h (by simp)
    · rw [hm] at h
      rcases dollarAnchor_eq_true.mp h with hr | hr

      · subst hr
        obtain ⟨g1, g2, g3, g4, g5, hg1, hg2, hg3, hg4, hg5, heq⟩ :=
          matchUuidBody_eq_some.mp hm
        exact Or.inl ⟨g1, g2, g3, g4, g5, hg1, hg2, hg3, hg4, hg5, by simpa using heq⟩
      · subst hr
        obtain ⟨g1, g2, g3, g4, g5, hg1, hg2, hg3, hg4, hg5, heq⟩ :=
          matchUuidBody_eq_some.mp hm
        refine Or.inr ⟨g1 ++ '-' :: (g2 ++ '-' :: (g3 ++ '-' :: (g4 ++ '-' :: g5))),
          ⟨g1, g2, g3, g4, g5, hg1, hg2, hg3, hg4, hg5, rfl⟩, ?_⟩
        rw [heq]
        simp
  · intro h
    unfold uuidRegexMatch
    rcases h with ⟨g1, g2, g3, g4, g5, hg1, hg2, hg3, hg4, hg5, heq⟩ |
      ⟨core, ⟨g1, g2, g3, g4, g5, hg1, hg2, hg3, hg4, hg5, hcore⟩, heq⟩
    · have : matchUuidBody s.data = some [] :=
        matchUuidBody_eq_some.mpr
          ⟨g1, g2, g3, g4, g5, hg1, hg2, hg3, hg4, hg5, by simpa using heq⟩
      rw [this]
      rfl
    · have : matchUuidBody s.data = some ['\n'] :=
        matchUuidBody_eq_some.mpr
          ⟨g1, g2, g3, g4, g5, hg1, hg2, hg3, hg4, hg5, by rw [heq, hcore]; simp⟩
      rw [this]
      rfl

/-! ### Claim C4: invalid or absent token short-circuits the handler -/

/-- Claim C4 is false as stated: for an absent token the handler does
redirect to the recovery page without any remote call, but it does not
surface the "link expired or invalid" message (no message at all is
added on that path). -/
theorem C4_counterexample :
    bad_token ∉ (existing noTokenRequest).messages ∧
    (existing noTokenRequest).response = Response.redirectTo recoveryUrl ∧
    (existing noTokenRequest).calls = [] := by
  refine ⟨?_, rfl, rfl⟩
  intro h
  simp [existing, noTokenRequest] at h

/-- Claim C4 (amended): a request with an absent token is redirected to
the recovery page with no remote call and no message; a request whose
token does not match the UUID pattern gets the "link expired or
invalid" message and is redirected to the recovery page with no remote
call.  In neither case is the remote user-fetch (or any other remote
call) invoked. -/
theorem C4_amended_short_circuit (req : ExistingRequest) :
    (req.token = none →
      existing req =
        { calls := [], messages := [], response := .redirectTo recoveryUrl }) ∧
    (∀ t, req.token = some t → uuidRegexMatch t = false →
      existing req =
        { calls := [], messages := [bad_token], response := .redirectTo recoveryUrl }) := by
  constructor
  · intro h
    simp [existing, h]
  · intro t ht hf
    simp [existing, ht, hf]

theorem C4_witness :
    existing noTokenRequest =
      { calls := [], messages := [], response := .redirectTo recoveryUrl } ∧
    existing badTokenRequest =
      { calls := [], messages := [bad_token], response := .redirectTo recoveryUrl } :=
  ⟨(C4_amended_short_circuit noTokenRequest).1 rfl,
   (C4_amended_short_circuit badTokenRequest).2 "not-a-uuid" rfl rfl⟩

/-! ### Claim C9: user-fetch failure handling -/

/-- Claim C9: when the user fetch raises the network-timeout exception
the handler adds the generic system error and renders the current page
in place — no redirect and no further remote calls; when it raises a
non-timeout service exception the handler adds the bad-token message
and redirects to the recovery page. -/
theorem C9_fetch_failures (req : ExistingRequest) (t : String)
    (ht : req.token = some t) (hv : uuidRegexMatch t = true) :
    (req.fetch = FetchResult.networkError →
      existing req =
        { calls := [RemoteCall.userFetch t], messages := [general_error],
          response := Response.render existingTemplate }) ∧
    (req.fetch = FetchResult.basketError →
      existing req =
        { calls := [RemoteCall.userFetch t], messages := [bad_token],
          response := Response.redirectTo recoveryUrl }) := by
  constructor <;> intro hf <;> simp [existing, ht, hv, hf]

theorem C9_witness :
    existing networkErrorRequest =
      { calls := [RemoteCall.userFetch sampleToken], messages := [general_error],
        response := Response.render existingTemplate } ∧
    existing basketErrorRequest =
      { calls := [RemoteCall.userFetch sampleToken], messages := [bad_token],
        response := Response.redirectTo recoveryUrl } :=
  ⟨(C9_fetch_failures networkErrorRequest sampleToken rfl rfl).1 rfl,
   (C9_fetch_failures basketErrorRequest sampleToken rfl rfl).2 rfl⟩

/-! ### Lemmas about the update payload (`kwargs`) -/

theorem fieldDiffKwargs_lookup_newsletters (user : UserRecord) (d : PostForm) :
    (fieldDiffKwargs user d).lookup "newsletters" = none := by
  unfold fieldDiffKwargs
  split_ifs <;> simp [List.lookup]

theorem kwargsLookup_lang (user : UserRecord) (d : PostForm) (s : String) :
    (fieldDiffKwargs user d ++ [("newsletters", s)]).lookup "lang" =
      (if user.lang ≠ d.lang then some d.lang else none) := by
  unfold fieldDiffKwargs
  split_ifs <;> simp [List.lookup]

theorem kwargsLookup_format (user : UserRecord) (d : PostForm) (s : String) :
    (fieldDiffKwargs user d ++ [("newsletters", s)]).lookup "format" =
      (if user.format ≠ d.format then some d.format else none) := by
  unfold fieldDiffKwargs
  split_ifs <;> simp [List.lookup]

theorem kwargsLookup_country (user : UserRecord) (d : PostForm) (s : String) :
    (fieldDiffKwargs user d ++ [("newsletters", s)]).lookup "country" =
      (if user.country ≠ d.country then some d.country else none) := by
  unfold fieldDiffKwargs
  split_ifs <;> simp [List.lookup]

theorem kwargsLookup_newsletters (user : UserRecord) (d : PostForm) (s : String) :
    (fieldDiffKwargs user d ++ [("newsletters", s)]).lookup "newsletters" = some s := by
  unfold fieldDiffKwargs
  split_ifs <;> simp [List.lookup]

/-! ### Claim C1: the remove_all path -/

/-- Claim C1 is false as stated: with `remove_all` set and a changed
`lang`, the handler issues an `update_user` call (for the changed field)
and an `unsubscribe` call in the same request — two remote writes, not
exactly one. -/
theorem C1_counterexample :
    ((existing c1Request).calls.filter RemoteCall.isWrite) =
      [RemoteCall.updateUser sampleToken [("lang", "de")],
       RemoteCall.unsubscribe sampleToken "user@example.com" true] := by
  rfl

/-- Claim C1 (amended): on a POST with a valid current user record where
`remove_all` is set and the form validates, exactly one
`unsubscribe(token, email, optout=True)` call occurs, the newsletter
formset validity is irrelevant to the outcome, and the update payload
never carries the newsletter set; however the per-field diff for
`lang`/`format`/`country` is still computed, and when any of those
fields differ an `update_user` call carrying exactly the changed fields
precedes the unsubscribe call. -/
theorem C1_amended_remove_all (t : String) (user : UserRecord)
    (catalog : List (String × NewsletterData)) (form : PostForm) (unsubFails : Bool)
    (hv : uuidRegexMatch t = true)
    (hs : (sortInitial (buildInitial catalog user)).isSome = true)
    (hfv : form.formValid = true)
    (hra : form.remove_all = true) :
    ((existing (mkPostRequest t user catalog form false unsubFails)).calls =
      RemoteCall.userFetch t ::
        ((if (fieldDiffKwargs user form).isEmpty then []
          else [RemoteCall.updateUser t (fieldDiffKwargs user form)]) ++
          [RemoteCall.unsubscribe t user.email true])) ∧
    ((fieldDiffKwargs user form).lookup "newsletters" = none) ∧
    (∀ b, (existing (mkPostRequest t user catalog
        { form with formsetValid := b } false unsubFails)).calls =
      (existing (mkPostRequest t user catalog form false unsubFails)).calls) := by
  obtain ⟨ini, hini⟩ := Option.isSome_iff_exists.mp hs
  refine ⟨?_, fieldDiffKwargs_lookup_newsletters user form, ?_⟩
  · cases unsubFails <;>
      simp [existing, mkPostRequest, hv, hini, existingPost, hfv, hra]
  · intro b
    cases unsubFails <;>
      simp [existing, mkPostRequest, hv, hini, existingPost, hfv, hra, fieldDiffKwargs]

theorem C1_witness :
    ((existing c1WitnessRequest).calls =
      [RemoteCall.userFetch sampleToken,
       RemoteCall.unsubscribe sampleToken "user@example.com" true]) ∧
    ((existing { c1WitnessRequest with
        form := { c1WitnessRequest.form with formsetValid := true } }).calls =
      (existing c1WitnessRequest).calls) := by
  have h := C1_amended_remove_all sampleToken sampleUser [] c1WitnessRequest.form false
    rfl rfl rfl rfl
  constructor
  · rw [show c1WitnessRequest =
      mkPostRequest sampleToken sampleUser [] c1WitnessRequest.form false false from rfl, h.1]
    rfl
  · simpa using h.2.2 true

/-! ### Claim C2: the non-remove_all update path -/

/-- Claim C2 is false as stated: on a valid POST where `lang`, `format`,
`country` and the newsletter set are all identical to the current
values, the code still issues one remote write — `update_user` carrying
the (unchanged) newsletter list — because the `newsletters` key is
always added to the payload on the non-remove_all path. -/
theorem C2_counterexample :
    ((existing c2Request).calls.filter RemoteCall.isWrite) =
      [RemoteCall.updateUser sampleToken [("newsletters", "firefox-tips,mobile")]] := by
  rfl

/-- Claim C2 (amended): on a POST without `remove_all` whose form and
formset validate, the update payload contains each of `lang`, `format`,
`country` iff the submitted value differs from the user's current
value; the payload additionally always contains the submitted
newsletter list, so exactly one `update_user` write occurs even when
nothing differs (never zero remote writes on this path). -/
theorem C2_amended_update_payload (t : String) (user : UserRecord)
    (catalog : List (String × NewsletterData)) (form : PostForm) (unsubFails : Bool)
    (hv : uuidRegexMatch t = true)
    (hs : (sortInitial (buildInitial catalog user)).isSome = true)
    (hfv : form.formValid = true)
    (hra : form.remove_all = false)
    (hsv : form.formsetValid = true) :
    ((existing (mkPostRequest t user catalog form false unsubFails)).calls =
      [RemoteCall.userFetch t,
       RemoteCall.updateUser t (fieldDiffKwargs user form ++
         [("newsletters", String.intercalate "," form.formsetNewsletters)])]) ∧
    ((fieldDiffKwargs user form ++
        [("newsletters", String.intercalate "," form.formsetNewsletters)]).lookup "lang" =
      (if user.lang ≠ form.lang then some form.lang else none)) ∧
    ((fieldDiffKwargs user form ++
        [("newsletters", String.intercalate "," form.formsetNewsletters)]).lookup "format" =
      (if user.format ≠ form.format then some form.format else none)) ∧
    ((fieldDiffKwargs user form ++
        [("newsletters", String.intercalate "," form.formsetNewsletters)]).lookup "country" =
      (if user.country ≠ form.country then some form.country else none)) ∧
    (List.lookup "newsletters" (fieldDiffKwargs user form ++
        [("newsletters", String.intercalate "," form.formsetNewsletters)]) =
      some (String.intercalate "," form.formsetNewsletters)) := by
  obtain ⟨ini, hini⟩ := Option.isSome_iff_exists.mp hs
  refine ⟨?_, kwargsLookup_lang user form _, kwargsLookup_format user form _,
    kwargsLookup_country user form _, kwargsLookup_newsletters user form _⟩
  simp [existing, mkPostRequest, hv, hini, existingPost, hfv, hra, hsv]

theorem C2_witness :
    ((existing c2WitnessRequest).calls =
      [RemoteCall.userFetch sampleToken,
       RemoteCall.updateUser sampleToken
         [("lang", "de"), ("newsletters", "firefox-tips,mobile")]]) ∧
    ((fieldDiffKwargs sampleUser c2WitnessRequest.form ++
        [("newsletters", "firefox-tips,mobile")]).lookup "format" = none) := by
  have h := C2_amended_update_payload sampleToken sampleUser [] c2WitnessRequest.form false
    rfl rfl rfl rfl rfl
  refine ⟨?_, ?_⟩
  · rw [show c2WitnessRequest =
      mkPostRequest sampleToken sampleUser [] c2WitnessRequest.form false false from rfl, h.1]
    rfl
  · have h2 := h.2.2.1
    have e : (if sampleUser.format ≠ c2WitnessRequest.form.format
        then some c2WitnessRequest.form.format else none) = (none : Option String) := rfl
    rw [e] at h2
    exact h2

/-! ### Claim C5: the display list and its ordering -/

/-- Claim C5: the display list contains an entry for newsletter `n` iff
the catalog entry has `show == True` or `n` is among the user's current
subscriptions; and the (non-empty) sorted list is a permutation of the
built list that is sorted by `order` when the first element carries
`order`, otherwise by `title` — the key choice decided by the first
element alone. -/
theorem C5_display_list (catalog : List (String × NewsletterData)) (user : UserRecord) :
    (∀ n : String,
      (∃ fd, fd ∈ buildInitial catalog user ∧ fd.newsletter = n) ↔
        ∃ d, (n, d) ∈ catalog ∧ (d.«show».getD false = true ∨ n ∈ user.newsletters)) ∧
    (∀ r, sortInitial (buildInitial catalog user) = some r →
      r.Perm (buildInitial catalog user) ∧
      (∀ fd, (buildInitial catalog user).head? = some fd →
        (fd.order.isSome = true → r.Sorted orderLe) ∧
        (fd.order = none → r.Sorted titleLe))) := by
  constructor
  · intro n
    constructor
    · rintro ⟨fd, hmem, rfl⟩
      rw [buildInitial, List.mem_filterMap] at hmem
      obtain ⟨⟨k, d⟩, hkd, hf⟩ := hmem
      by_cases hcond : (d.«show».getD false || user.newsletters.contains k) = true
      · rw [if_pos hcond] at hf
        obtain rfl := (Option.some.injEq _ _).mp hf
        refine ⟨d, hkd, ?_⟩
        rcases Bool.or_eq_true_iff.mp hcond with h | h
        · exact Or.inl h
        · exact Or.inr (List.elem_iff.mp h)
      · rw [if_neg hcond] at hf
        exact absurd hf (by simp)
    · rintro ⟨d, hkd, hcond⟩
      refine ⟨_, List.mem_filterMap.mpr ⟨(n, d), hkd, if_pos ?_⟩, rfl⟩
      rcases hcond with h | h
      · exact Bool.or_eq_true_iff.mpr (Or.inl h)
      · exact Bool.or_eq_true_iff.mpr (Or.inr (List.elem_iff.mpr h))
  · intro r hr
    rcases hb : buildInitial catalog user with _ | ⟨fd0, rest⟩ <;> rw [hb] at hr
    · simp only [sortInitial, Option.some.injEq] at hr
      subst hr
      exact ⟨List.Perm.refl [], by intro fd h; cases h⟩
    · simp only [sortInitial] at hr
      by_cases ho : fd0.order.isSome = true
      · rw [if_pos ho] at hr
        by_cases hall : ((fd0 :: rest).all fun y => y.order.isSome) = true
        · rw [if_pos hall, Option.some.injEq] at hr
          subst hr
          refine ⟨List.perm_insertionSort orderLe _, ?_⟩
          intro fd hfd
          obtain rfl : fd0 = fd := by simpa using hfd
          exact ⟨fun _ => List.sorted_insertionSort orderLe _,
            fun hnone => absurd (hnone ▸ ho) (by simp)⟩
        · rw [if_neg hall] at hr
          exact absurd hr (by simp)
      · rw [if_neg ho, Option.some.injEq] at hr
        subst hr
        refine ⟨List.perm_insertionSort titleLe _, ?_⟩
        intro fd hfd
        obtain rfl : fd0 = fd := by simpa using hfd
        exact ⟨fun hsome => absurd hsome ho,
          fun _ => List.sorted_insertionSort titleLe _⟩

theorem C5_witness :
    (∃ fd, fd ∈ buildInitial c5Catalog c5User ∧ fd.newsletter = "old-news") ∧
    List.Sorted orderLe (List.insertionSort orderLe (buildInitial c5Catalog c5User)) := by
  have h := C5_display_list c5Catalog c5User
  constructor
  · exact (h.1 "old-news").mpr ⟨c5OldNewsData, by decide, Or.inr (by decide)⟩
  · exact ((h.2 (List.insertionSort orderLe (buildInitial c5Catalog c5User)) rfl).2
      c5HeadForm (by decide)).1 rfl

/-! ### Claim C6: signup-confirmation terminal states -/

/-- Claim C6: the confirm handler ends in exactly one of the three
terminal states, determined solely by the confirm call's outcome: a
rejection with code 403 gives only `token_error`; a rejection with any
other code gives only `generic_error`; an "ok" status gives only
`success`; a non-ok status body gives only `generic_error`. -/
theorem C6_confirm_terminal_states (o : ConfirmOutcome) :
    ((confirm o).success.toNat + (confirm o).generic_error.toNat +
      (confirm o).token_error.toNat = 1) ∧
    (∀ c, o = ConfirmOutcome.raisesCode c → c = 403 →
      confirm o = { success := false, generic_error := false, token_error := true }) ∧
    (∀ c, o = ConfirmOutcome.raisesCode c → c ≠ 403 →
      confirm o = { success := false, generic_error := true, token_error := false }) ∧
    (∀ st, o = ConfirmOutcome.returns st → st = "ok" →
      confirm o = { success := true, generic_error := false, token_error := false }) ∧
    (∀ st, o = ConfirmOutcome.returns st → st ≠ "ok" →
      confirm o = { success := false, generic_error := true, token_error := false }) := by
  cases o with
  | raisesCode c =>
    by_cases h : c = 403
    · subst h
      refine ⟨by simp [confirm], ?_, ?_, ?_, ?_⟩
      · intro c' hc' _
        cases hc'
        simp [confirm]
      · intro c' hc' hne
        cases hc'
        exact absurd rfl hne
      · intro st hst
        exact absurd hst (by simp)
      · intro st hst
        exact absurd hst (by simp)
    · refine ⟨by simp [confirm, h], ?_, ?_, ?_, ?_⟩
      · intro c' hc' he
        cases hc'
        exact absurd he h
      · intro c' hc' _
        cases hc'
        simp [confirm, h]
      · intro st hst
        exact absurd hst (by simp)
      · intro st hst
        exact absurd hst (by simp)
  | returns st =>
    by_cases h : st = "ok"
    · subst h
      refine ⟨by simp [confirm], ?_, ?_, ?_, ?_⟩
      · intro c' hc'
        exact absurd hc' (by simp)
      · intro c' hc'
        exact absurd hc' (by simp)
      · intro st' hst' _
        cases hst'
        simp [confirm]
      · intro st' hst' hne
        cases hst'
        exact absurd rfl hne
    · refine ⟨by simp [confirm, h], ?_, ?_, ?_, ?_⟩
      · intro c' hc'
        exact absurd hc' (by simp)
      · intro c' hc'
        exact absurd hc' (by simp)
      · intro st' hst' he
        cases hst'
        exact absurd he h
      · intro st' hst' _
        cases hst'
        simp [confirm, h]

theorem C6_witness :
    confirm (ConfirmOutcome.raisesCode 403) =
      { success := false, generic_error := false, token_error := true } ∧
    confirm (ConfirmOutcome.raisesCode 500) =
      { success := false, generic_error := true, token_error := false } ∧
    confirm (ConfirmOutcome.returns "ok") =
      { success := true, generic_error := false, token_error := false } ∧
    confirm (ConfirmOutcome.returns "error") =
      { success := false, generic_error := true, token_error := false } :=
  ⟨(C6_confirm_terminal_states _).2.1 403 rfl rfl,
   (C6_confirm_terminal_states _).2.2.1 500 rfl (by decide),
   (C6_confirm_terminal_states _).2.2.2.1 "ok" rfl rfl,
   (C6_confirm_terminal_states _).2.2.2.2 "error" rfl (by decide)⟩

/-! ### Claim C7: recovery-flow error handling -/

/-- Claim C7: on a POST with a valid email form, a 404 from
`send_recovery_message` puts the "not in our system" message (which
contains the subscribe link) on the email field and not the generic
error; any other code puts the generic error on the form; success
redirects to the same path with a `?success` marker instead of
rendering. -/
theorem C7_recovery_errors (req : RecoveryRequest)
    (hm : req.method = Method.post) (hfv : req.formValid = true) :
    (∀ c, req.sendOutcome = RecoveryOutcome.raisesCode c → c = 404 →
      (recovery req).emailErrors = [unknown_address_text mozillaAndYouUrl] ∧
      (∃ pre post, unknown_address_text mozillaAndYouUrl =
        pre ++ mozillaAndYouUrl ++ post) ∧
      general_error ∉ (recovery req).emailErrors ∧
      (recovery req).allErrors = [] ∧
      (recovery req).response = Response.render recoveryTemplate) ∧
    (∀ c, req.sendOutcome = RecoveryOutcome.raisesCode c → c ≠ 404 →
      (recovery req).allErrors = [general_error] ∧
      (recovery req).emailErrors = []) ∧
    (req.sendOutcome = RecoveryOutcome.succeeds →
      (recovery req).response = Response.redirectTo (req.path ++ "?success") ∧
      (recovery req).messages = [recovery_text]) := by
  refine ⟨?_, ?_, ?_⟩
  · intro c hc h404
    subst h404
    constructor
    · simp [recovery, hm, hfv, hc]
    refine ⟨⟨"This email address is not in our system. Please double check your address or <a href=\"",
      "\">subscribe to our newsletters.</a>", rfl⟩, ?_, ?_, ?_⟩
    · have hne : general_error ≠ unknown_address_text mozillaAndYouUrl := by decide
      simp [recovery, hm, hfv, hc, hne]
    · simp [recovery, hm, hfv, hc]
    · simp [recovery, hm, hfv, hc]
  · intro c hc hne
    constructor <;> simp [recovery, hm, hfv, hc, hne]
  · intro hc
    constructor <;> simp [recovery, hm, hfv, hc]

theorem C7_witness :
    (recovery c7Request404).emailErrors = [unknown_address_text mozillaAndYouUrl] ∧
    (recovery c7Request500).allErrors = [general_error] ∧
    (recovery c7RequestOk).response =
      Response.redirectTo ("/newsletter/recovery/" ++ "?success") :=
  ⟨((C7_recovery_errors c7Request404 rfl rfl).1 404 rfl rfl).1,
   ((C7_recovery_errors c7Request500 rfl rfl).2.1 500 rfl (by decide)).1,
   ((C7_recovery_errors c7RequestOk rfl rfl).2.2 rfl).1⟩

/-! ### Claim C8: the unsubscribe-reason submission -/

/-- Claim C8: a POST to the landing page with `unsub=2` and a (non-empty)
token invokes `custom_unsub_reason` exactly once, with that token and
the text joining the English texts of the checked predefined reasons in
index order followed by the optional free text, separated by blank
lines and ending with a trailing blank line; in particular with reasons
0 and 3 checked and free text "spam" the text is
`"<reason0>\n\n<reason3>\n\nspam\n\n"`. -/
theorem C8_unsub_reasons (req : UpdatedRequest) (t : String)
    (hm : req.method = Method.post)
    (hu : req.unsub = some "2")
    (ht : req.token = some t)
    (hne : t ≠ "") :
    ((updated req).calls = [RemoteCall.customUnsubReason t (reason_text req)]) ∧
    reason_text c8Request =
      "You send too many emails.\n\nI didn\x27t sign up for this.\n\nspam\n\n" := by
  constructor
  · simp [updated, hm, hu, ht, hne, show parsedUnsub (some "2") = 2 from rfl,
      UNSUB_UNSUBSCRIBED_ALL, UNSUB_REASONS_SUBMITTED]
  · rfl

theorem C8_witness :
    (updated c8Request).calls =
      [RemoteCall.customUnsubReason sampleToken (reason_text c8Request)] :=
  (C8_unsub_reasons c8Request sampleToken rfl rfl rfl (by decide)).1

/-! ### Claim C10: defaulting of the `unsub` parameter -/

/-- Spot checks of the Python 2 `int()` model against CPython 2.7
behaviour: Unicode decimal digits parse (`int(u'٢') == 2`), Unicode
whitespace is stripped (`int(u'\x0b2') == 2`, `int(u'\xa02') == 2`),
interior whitespace, alphabetic strings and the empty string raise
`ValueError`. -/
theorem pyParseInt_examples :
    pyParseInt "٢" = some 2 ∧
    pyParseInt "\x0b2" = some 2 ∧
    pyParseInt "\u00A02" = some 2 ∧
    pyParseInt " 12 " = some 12 ∧
    pyParseInt "-٣" = some (-3) ∧
    pyParseInt "2 2" = none ∧
    pyParseInt "pony" = none ∧
    pyParseInt "" = none := by
  decide

/-- Claim C10: when the `unsub` parameter is absent or not parseable as
an integer the handler treats it as `0`: the thank-you message is
shown, neither the reason-collection branch nor the final thank-you
branch is selected, and `custom_unsub_reason` is never invoked; the
thank-you message is added exactly when the parsed value equals 0. -/
theorem C10_unsub_default (req : UpdatedRequest) :
    ((req.unsub = none ∨ pyParseInt (req.unsub.getD "0") = none) →
      (updated req).messages = [thank_you] ∧
      (updated req).unsubscribed_all = false ∧
      (updated req).reasons_submitted = false ∧
      (updated req).calls = []) ∧
    (thank_you ∈ (updated req).messages ↔ parsedUnsub req.unsub = 0) := by
  constructor
  · intro h
    have hp : parsedUnsub req.unsub = 0 := by
      rcases h with h | h
      · rw [h]
        decide
      · unfold parsedUnsub
        rw [h]
    refine ⟨?_, ?_, ?_, ?_⟩ <;>
      simp [updated, hp, UNSUB_UNSUBSCRIBED_ALL, UNSUB_REASONS_SUBMITTED]
  · by_cases hz : parsedUnsub req.unsub = 0 <;>
      simp [updated, hz, thank_you]

theorem C10_witness :
    ((updated c10Request).messages = [thank_you] ∧
      (updated c10Request).unsubscribed_all = false ∧
      (updated c10Request).reasons_submitted = false ∧
      (updated c10Request).calls = []) ∧
    ((updated c10AbsentRequest).messages = [thank_you] ∧
      (updated c10AbsentRequest).unsubscribed_all = false ∧
      (updated c10AbsentRequest).reasons_submitted = false ∧
      (updated c10AbsentRequest).calls = []) :=
  ⟨(C10_unsub_default c10Request).1 (Or.inr rfl),
   (C10_unsub_default c10AbsentRequest).1 (Or.inl rfl)⟩

end Bedrock
